import Mathlib

/-!
Shallow embedding of the core of ScrollWithPointerMovement (src/main.c):
the activation state machine, the per-axis motion accumulators with
threshold-based tick extraction, and the emission rate limiter.

Modelling conventions:
- C doubles (the motion deltas and the per-axis accumulators) are modelled
  as rationals.
- Timestamps (struct timespec from clock_gettime) are modelled as a Nat
  count of nanoseconds; diff_timespec of two such timestamps corresponds to
  truncated subtraction for a monotone clock.
- The C cast (int)(x) of a double truncates toward zero; it is modelled by
  ctrunc below.
- X11 modifier bitmasks (mods.base and trigger_key_modifiers) are modelled
  as Nat bit patterns; the C guard trigger_key_modifiers > 0 coincides with
  the mask being nonzero on that domain.
- Calls into the X server (the Backend of the spec) are recorded in an
  explicit trace list. One scrollTick entry stands for the adjacent
  XTestFakeButtonEvent press+release pair that realizes one wheel unit.
-/

/-- Truncation toward zero of a rational, the semantics of the C cast
(int)(x) for an in-range double x. -/
def ctrunc (q : ℚ) : ℤ := if q < 0 then -Int.floor (-q) else Int.floor q

inductive ScrollDirection
| SCROLL_HORIZONTAL
| SCROLL_VERTICAL
deriving DecidableEq, Repr

def SCROLL_UP : Nat := 4
def SCROLL_DOWN : Nat := 5
def SCROLL_LEFT : Nat := 6
def SCROLL_RIGHT : Nat := 7

def NANOSECOND_TO_MILLISECOND_DIV : Nat := 1000000
def SCROLL_TRIGGER_SPEED_LIMIT_MS : Nat := 30
def CAPSLOCK_KEY_CODE : Int := 66

structure ScreenPoint where
  x : Int
  y : Int
deriving DecidableEq, Repr

structure Config where
  mouse_move_delta_to_scroll_threshold : Nat
  allow_horizontal_scroll : Bool
  allow_triggering_of_repeated_scroll_event : Bool
  show_debug_output : Bool
  is_toggle_mode_on : Bool
  release_trigger_button : Bool
  trigger_key_code : Int
  trigger_key_modifiers : Nat
deriving DecidableEq, Repr

def create_default_config : Config :=
  { mouse_move_delta_to_scroll_threshold := 50
    allow_horizontal_scroll := false
    allow_triggering_of_repeated_scroll_event := false
    show_debug_output := false
    is_toggle_mode_on := false
    release_trigger_button := true
    trigger_key_code := CAPSLOCK_KEY_CODE
    trigger_key_modifiers := 0 }

/-- The -c option of parse_args_into_config: the parsed integer goes through
labs and a cast to uint (32-bit) before being stored as the threshold. -/
def parse_c_threshold (num : Int) : Nat := num.natAbs % 2 ^ 32

/-- Calls made to the X server, the external Backend of the spec. -/
inductive BackendCall
| hideCursor
| showCursor
| fakeKeyRelease (key_code : Int)
| scrollTick (button : Nat)
| queryPointer
| warpPointer (p : ScreenPoint)
deriving DecidableEq, Repr

/-- is_trigger_shortcut from src/main.c: the guard returns False when the
configured modifier mask is positive and (modifiers AND mask) differs from
modifiers; otherwise the key codes are compared. -/
def is_trigger_shortcut (key_code : Int) (modifiers : Nat) (cfg : Config) : Bool :=
  if 0 < cfg.trigger_key_modifiers ∧ modifiers &&& cfg.trigger_key_modifiers ≠ modifiers then
    false
  else
    key_code == cfg.trigger_key_code

/-- trigger_scroll from src/main.c: returns at once on amount 0, otherwise
emits press+release pairs for the scroll button chosen from direction and
sign; the loop breaks after one tick unless
allow_triggering_of_repeated_scroll_event is set. -/
def trigger_scroll (cfg : Config) (scrollDirection : ScrollDirection) (amount : Int) :
    List BackendCall :=
  if amount = 0 then []
  else
    List.replicate
      (if cfg.allow_triggering_of_repeated_scroll_event then amount.natAbs else 1)
      (BackendCall.scrollTick
        (if amount < 0 then
          (if scrollDirection = ScrollDirection.SCROLL_VERTICAL then SCROLL_UP else SCROLL_LEFT)
        else
          (if scrollDirection = ScrollDirection.SCROLL_VERTICAL then SCROLL_DOWN else SCROLL_RIGHT)))

/-- before_synthethic_scroll from src/main.c: on the first scroll of an
activation window optionally synthesizes a release of the trigger key, and
increments scrolls_since_active. Returns the new counter and the calls. -/
def before_synthethic_scroll (cfg : Config) (scrolls_since_active : Nat) :
    Nat × List BackendCall :=
  (scrolls_since_active + 1,
   if cfg.release_trigger_button ∧ scrolls_since_active = 0 then
     [BackendCall.fakeKeyRelease cfg.trigger_key_code]
   else [])

/-- The rate-limit test of check_for_scroll_trigger: the diff_timespec of the
last scroll time and now has tv_sec = 0 and tv_nsec below 30 ms. Timestamps
are nanosecond counts, so tv_sec is elapsed / 10^9 and tv_nsec is
elapsed % 10^9. -/
def scroll_rate_limited (now last_scroll_time : Nat) : Prop :=
  (now - last_scroll_time) / 1000000000 = 0 ∧
    (now - last_scroll_time) % 1000000000 / NANOSECOND_TO_MILLISECOND_DIV <
      SCROLL_TRIGGER_SPEED_LIMIT_MS

instance (now last_scroll_time : Nat) : Decidable (scroll_rate_limited now last_scroll_time) := by
  unfold scroll_rate_limited
  exact inferInstance

/-- Result of one call to check_for_scroll_trigger: the updated accumulator
(the double behind the total_movement_delta pointer), the globals it may
touch (scrolls_since_active, last_scroll_time), the Backend calls issued,
the local scroll_amount variable (0 when the scroll branch is not reached),
and whether the rate-limit early return fired. -/
structure ScrollCheckResult where
  total_movement_delta : ℚ
  scrolls_since_active : Nat
  last_scroll_time : Nat
  calls : List BackendCall
  scroll_amount : Int
  suppressed : Bool
deriving DecidableEq, Repr

/-- check_for_scroll_trigger from src/main.c. -/
def check_for_scroll_trigger (scroll_direction : ScrollDirection)
    (total_movement_delta delta : ℚ) (cfg : Config)
    (now last_scroll_time : Nat) (scrolls_since_active : Nat) : ScrollCheckResult :=
  if |total_movement_delta + delta| > (cfg.mouse_move_delta_to_scroll_threshold : ℚ) then
    if scroll_rate_limited now last_scroll_time then
      { total_movement_delta := 0
        scrolls_since_active := scrolls_since_active
        last_scroll_time := last_scroll_time
        calls := []
        scroll_amount := 0
        suppressed := true }
    else
      { total_movement_delta :=
          total_movement_delta + delta -
            ((ctrunc ((total_movement_delta + delta) /
                  (cfg.mouse_move_delta_to_scroll_threshold : ℚ)) *
                (cfg.mouse_move_delta_to_scroll_threshold : ℤ) : ℤ) : ℚ)
        scrolls_since_active := (before_synthethic_scroll cfg scrolls_since_active).1
        last_scroll_time := now
        calls :=
          (before_synthethic_scroll cfg scrolls_since_active).2 ++
            trigger_scroll cfg scroll_direction
              (ctrunc ((total_movement_delta + delta) /
                (cfg.mouse_move_delta_to_scroll_threshold : ℚ)))
        scroll_amount :=
          ctrunc ((total_movement_delta + delta) /
            (cfg.mouse_move_delta_to_scroll_threshold : ℚ))
        suppressed := false }
  else
    { total_movement_delta := total_movement_delta + delta
      scrolls_since_active := scrolls_since_active
      last_scroll_time := last_scroll_time
      calls := []
      scroll_amount := 0
      suppressed := false }

/-- The incoming XInput2 events the main loop dispatches on. -/
inductive XEvent
| keyPress (deviceid : Int) (key_code : Int) (mods : Nat) (is_repeat : Bool)
| keyRelease (deviceid : Int) (key_code : Int) (mods : Nat)
| rawMotion (deltaX deltaY : ℚ)
deriving DecidableEq, Repr

/-- The mutable program state touched by the main event loop: the globals
is_active, scrolls_since_active and last_scroll_time, and the locals
total_movement_y_delta, total_movement_x_delta and start_pointer_pos. -/
structure LoopState where
  is_active : Bool
  scrolls_since_active : Nat
  last_scroll_time : Nat
  total_movement_y_delta : ℚ
  total_movement_x_delta : ℚ
  start_pointer_pos : ScreenPoint
deriving DecidableEq, Repr

/-- set_is_active from src/main.c: returns unchanged when the flag already
has the requested value, otherwise flips it, resets scrolls_since_active,
and hides or shows the cursor. -/
def set_is_active (active : Bool) (s : LoopState) : LoopState × List BackendCall :=
  if active = s.is_active then (s, [])
  else
    ({ s with is_active := active, scrolls_since_active := 0 },
     [if active then BackendCall.hideCursor else BackendCall.showCursor])

/-- One iteration of the main event loop of src/main.c, for one decoded
event. pointer_pos is what get_pointer_position would return at this
moment, now is the clock_gettime reading inside check_for_scroll_trigger,
and xtest_keyboard_device_id is the device id the loop excludes to avoid
self-triggering. Returns the new state and the Backend calls issued. -/
def dispatch_event (cfg : Config) (xtest_keyboard_device_id : Int)
    (pointer_pos : ScreenPoint) (now : Nat) (ev : XEvent) (s : LoopState) :
    LoopState × List BackendCall :=
  match ev with
  | XEvent.keyPress deviceid key_code mods is_repeat =>
    if deviceid ≠ xtest_keyboard_device_id ∧
        is_trigger_shortcut key_code mods cfg = true ∧ is_repeat = false then
      let r1 :=
        if cfg.is_toggle_mode_on then set_is_active (!s.is_active) s
        else if s.is_active = false then set_is_active true s
        else (s, [])
      if r1.1.is_active then
        ({ r1.1 with start_pointer_pos := pointer_pos },
         r1.2 ++ [BackendCall.queryPointer])
      else r1
    else (s, [])
  | XEvent.keyRelease deviceid key_code _mods =>
    if cfg.is_toggle_mode_on = false then
      if deviceid ≠ xtest_keyboard_device_id ∧ s.is_active = true ∧
          is_trigger_shortcut key_code 0 cfg = true then
        set_is_active false s
      else (s, [])
    else (s, [])
  | XEvent.rawMotion deltaX deltaY =>
    if s.is_active = false then (s, [])
    else
      let ry := check_for_scroll_trigger ScrollDirection.SCROLL_VERTICAL
        s.total_movement_y_delta deltaY cfg now s.last_scroll_time s.scrolls_since_active
      let s1 := { s with
        total_movement_y_delta := ry.total_movement_delta
        scrolls_since_active := ry.scrolls_since_active
        last_scroll_time := ry.last_scroll_time }
      if cfg.allow_horizontal_scroll then
        let rx := check_for_scroll_trigger ScrollDirection.SCROLL_HORIZONTAL
          s1.total_movement_x_delta deltaX cfg now s1.last_scroll_time s1.scrolls_since_active
        ({ s1 with
            total_movement_x_delta := rx.total_movement_delta
            scrolls_since_active := rx.scrolls_since_active
            last_scroll_time := rx.last_scroll_time },
         BackendCall.warpPointer s.start_pointer_pos :: (ry.calls ++ rx.calls))
      else (s1, BackendCall.warpPointer s.start_pointer_pos :: ry.calls)

/-- Run of the main loop over a list of timestamped events. -/
def dispatch_events (cfg : Config) (xtest_keyboard_device_id : Int)
    (pointer_pos : ScreenPoint) : List (Nat × XEvent) → LoopState →
    LoopState × List BackendCall
  | [], s => (s, [])
  | (now, ev) :: rest, s =>
    let r := dispatch_event cfg xtest_keyboard_device_id pointer_pos now ev s
    let rr := dispatch_events cfg xtest_keyboard_device_id pointer_pos rest r.1
    (rr.1, r.2 ++ rr.2)

/-- Aggregate observation of a run of check_for_scroll_trigger over a list
of timestamped deltas for one axis: final accumulator, final counter and
timestamp, the signed sum of the scroll_amount values, and whether any step
took the rate-limit early return. -/
structure ScrollRunResult where
  total_movement_delta : ℚ
  scrolls_since_active : Nat
  last_scroll_time : Nat
  total_scroll_amount : Int
  any_suppressed : Bool
deriving DecidableEq, Repr

/-- Iterate check_for_scroll_trigger over a list of (timestamp, delta)
pairs on one axis, threading the accumulator and the globals as the main
loop does. -/
def run_scroll_checks (cfg : Config) (dir : ScrollDirection) :
    List (Nat × ℚ) → ℚ → Nat → Nat → ScrollRunResult
  | [], acc, scrolls, last => ⟨acc, scrolls, last, 0, false⟩
  | (now, d) :: rest, acc, scrolls, last =>
    let r := check_for_scroll_trigger dir acc d cfg now last scrolls
    let rr := run_scroll_checks cfg dir rest r.total_movement_delta
      r.scrolls_since_active r.last_scroll_time
    ⟨rr.total_movement_delta, rr.scrolls_since_active, rr.last_scroll_time,
      r.scroll_amount + rr.total_scroll_amount, r.suppressed || rr.any_suppressed⟩

/-- Number of scroll wheel units among a list of Backend calls (each
scrollTick stands for one press+release pair). -/
def count_scroll_ticks : List BackendCall → Nat
  | [] => 0
  | BackendCall.scrollTick _ :: rest => count_scroll_ticks rest + 1
  | BackendCall.hideCursor :: rest => count_scroll_ticks rest
  | BackendCall.showCursor :: rest => count_scroll_ticks rest
  | BackendCall.fakeKeyRelease _ :: rest => count_scroll_ticks rest
  | BackendCall.queryPointer :: rest => count_scroll_ticks rest
  | BackendCall.warpPointer _ :: rest => count_scroll_ticks rest

theorem scroll_rate_limited_iff (now last_scroll_time : Nat) :
    scroll_rate_limited now last_scroll_time ↔ now - last_scroll_time < 30000000 := by
  unfold scroll_rate_limited NANOSECOND_TO_MILLISECOND_DIV SCROLL_TRIGGER_SPEED_LIMIT_MS
  omega

theorem ctrunc_sub_lt (q : ℚ) : |q - (ctrunc q : ℚ)| < 1 := by
  unfold ctrunc
  split
  · have h1 := Int.floor_le (-q)
    have h2 := Int.lt_floor_add_one (-q)
    rw [abs_lt]
    push_cast
    constructor <;> linarith
  · have h1 := Int.floor_le q
    have h2 := Int.lt_floor_add_one q
    rw [abs_lt]
    constructor <;> linarith

theorem sub_ctrunc_div_mul_lt (x t : ℚ) (ht : 0 < t) :
    |x - (ctrunc (x / t) : ℚ) * t| < t := by
  have hne : t ≠ 0 := ne_of_gt ht
  have hkey : x - (ctrunc (x / t) : ℚ) * t = (x / t - (ctrunc (x / t) : ℚ)) * t := by
    rw [sub_mul, div_mul_cancel₀ _ hne]
  rw [hkey, abs_mul, abs_of_pos ht]
  calc |x / t - (ctrunc (x / t) : ℚ)| * t < 1 * t :=
        mul_lt_mul_of_pos_right (ctrunc_sub_lt (x / t)) ht
    _ = t := one_mul t

/-- Branch characterization of check_for_scroll_trigger: no crossing. -/
theorem check_eq_of_no_cross (scroll_direction : ScrollDirection)
    (total_movement_delta delta : ℚ) (cfg : Config)
    (now last_scroll_time scrolls_since_active : Nat)
    (h : ¬ |total_movement_delta + delta| > (cfg.mouse_move_delta_to_scroll_threshold : ℚ)) :
    check_for_scroll_trigger scroll_direction total_movement_delta delta cfg
        now last_scroll_time scrolls_since_active =
      { total_movement_delta := total_movement_delta + delta
        scrolls_since_active := scrolls_since_active
        last_scroll_time := last_scroll_time
        calls := []
        scroll_amount := 0
        suppressed := false } := by
  unfold check_for_scroll_trigger
  rw [if_neg h]

/-- Branch characterization of check_for_scroll_trigger: crossing while the
rate limit window is open. -/
theorem check_eq_of_rate_limited (scroll_direction : ScrollDirection)
    (total_movement_delta delta : ℚ) (cfg : Config)
    (now last_scroll_time scrolls_since_active : Nat)
    (h1 : |total_movement_delta + delta| > (cfg.mouse_move_delta_to_scroll_threshold : ℚ))
    (h2 : scroll_rate_limited now last_scroll_time) :
    check_for_scroll_trigger scroll_direction total_movement_delta delta cfg
        now last_scroll_time scrolls_since_active =
      { total_movement_delta := 0
        scrolls_since_active := scrolls_since_active
        last_scroll_time := last_scroll_time
        calls := []
        scroll_amount := 0
        suppressed := true } := by
  unfold check_for_scroll_trigger
  rw [if_pos h1, if_pos h2]

/-- Branch characterization of check_for_scroll_trigger: crossing with the
rate limit passed, reaching the scroll emission code. -/
theorem check_eq_of_scroll (scroll_direction : ScrollDirection)
    (total_movement_delta delta : ℚ) (cfg : Config)
    (now last_scroll_time scrolls_since_active : Nat)
    (h1 : |total_movement_delta + delta| > (cfg.mouse_move_delta_to_scroll_threshold : ℚ))
    (h2 : ¬ scroll_rate_limited now last_scroll_time) :
    check_for_scroll_trigger scroll_direction total_movement_delta delta cfg
        now last_scroll_time scrolls_since_active =
      { total_movement_delta :=
          total_movement_delta + delta -
            (ctrunc ((total_movement_delta + delta) /
                (cfg.mouse_move_delta_to_scroll_threshold : ℚ)) : ℚ) *
              (cfg.mouse_move_delta_to_scroll_threshold : ℚ)
        scrolls_since_active := scrolls_since_active + 1
        last_scroll_time := now
        calls :=
          (if cfg.release_trigger_button ∧ scrolls_since_active = 0 then
            [BackendCall.fakeKeyRelease cfg.trigger_key_code]
          else []) ++
            trigger_scroll cfg scroll_direction
              (ctrunc ((total_movement_delta + delta) /
                (cfg.mouse_move_delta_to_scroll_threshold : ℚ)))
        scroll_amount :=
          ctrunc ((total_movement_delta + delta) /
            (cfg.mouse_move_delta_to_scroll_threshold : ℚ))
        suppressed := false } := by
  unfold check_for_scroll_trigger before_synthethic_scroll
  rw [if_pos h1, if_neg h2]
  push_cast
  ring_nf

theorem check_total_bound (scroll_direction : ScrollDirection)
    (total_movement_delta delta : ℚ) (cfg : Config)
    (now last_scroll_time scrolls_since_active : Nat)
    (ht : 0 < cfg.mouse_move_delta_to_scroll_threshold) :
    |(check_for_scroll_trigger scroll_direction total_movement_delta delta cfg
        now last_scroll_time scrolls_since_active).total_movement_delta| ≤
      (cfg.mouse_move_delta_to_scroll_threshold : ℚ) := by
  have htq : (0 : ℚ) < (cfg.mouse_move_delta_to_scroll_threshold : ℚ) := by
    exact_mod_cast ht
  by_cases h1 : |total_movement_delta + delta| >
      (cfg.mouse_move_delta_to_scroll_threshold : ℚ)
  · by_cases h2 : scroll_rate_limited now last_scroll_time
    · rw [check_eq_of_rate_limited _ _ _ _ _ _ _ h1 h2]
      simp
    · rw [check_eq_of_scroll _ _ _ _ _ _ _ h1 h2]
      exact le_of_lt (sub_ctrunc_div_mul_lt (total_movement_delta + delta) _ htq)
  · rw [check_eq_of_no_cross _ _ _ _ _ _ _ h1]
    exact le_of_not_lt h1

theorem check_suppressed_total (scroll_direction : ScrollDirection)
    (total_movement_delta delta : ℚ) (cfg : Config)
    (now last_scroll_time scrolls_since_active : Nat)
    (h : (check_for_scroll_trigger scroll_direction total_movement_delta delta cfg
        now last_scroll_time scrolls_since_active).suppressed = true) :
    (check_for_scroll_trigger scroll_direction total_movement_delta delta cfg
        now last_scroll_time scrolls_since_active).total_movement_delta = 0 := by
  by_cases h1 : |total_movement_delta + delta| >
      (cfg.mouse_move_delta_to_scroll_threshold : ℚ)
  · by_cases h2 : scroll_rate_limited now last_scroll_time
    · rw [check_eq_of_rate_limited _ _ _ _ _ _ _ h1 h2]
    · rw [check_eq_of_scroll _ _ _ _ _ _ _ h1 h2] at h
      simp at h
  · rw [check_eq_of_no_cross _ _ _ _ _ _ _ h1] at h
    simp at h

theorem check_conservation (scroll_direction : ScrollDirection)
    (total_movement_delta delta : ℚ) (cfg : Config)
    (now last_scroll_time scrolls_since_active : Nat)
    (h : (check_for_scroll_trigger scroll_direction total_movement_delta delta cfg
        now last_scroll_time scrolls_since_active).suppressed = false) :
    (check_for_scroll_trigger scroll_direction total_movement_delta delta cfg
        now last_scroll_time scrolls_since_active).total_movement_delta +
      ((check_for_scroll_trigger scroll_direction total_movement_delta delta cfg
        now last_scroll_time scrolls_since_active).scroll_amount : ℚ) *
        (cfg.mouse_move_delta_to_scroll_threshold : ℚ) =
      total_movement_delta + delta := by
  by_cases h1 : |total_movement_delta + delta| >
      (cfg.mouse_move_delta_to_scroll_threshold : ℚ)
  · by_cases h2 : scroll_rate_limited now last_scroll_time
    · rw [check_eq_of_rate_limited _ _ _ _ _ _ _ h1 h2] at h
      simp at h
    · rw [check_eq_of_scroll _ _ _ _ _ _ _ h1 h2]
      ring
  · rw [check_eq_of_no_cross _ _ _ _ _ _ _ h1]
    simp

/-- Sum of the deltas of a timestamped delta list. -/
def sum_deltas (events : List (Nat × ℚ)) : ℚ := (events.map Prod.snd).sum

theorem run_conservation (cfg : Config) (dir : ScrollDirection) :
    ∀ (events : List (Nat × ℚ)) (acc : ℚ) (scrolls last : Nat),
      (run_scroll_checks cfg dir events acc scrolls last).any_suppressed = false →
      (run_scroll_checks cfg dir events acc scrolls last).total_movement_delta +
        ((run_scroll_checks cfg dir events acc scrolls last).total_scroll_amount : ℚ) *
          (cfg.mouse_move_delta_to_scroll_threshold : ℚ) =
        acc + sum_deltas events := by
  intro events
  induction events with
  | nil =>
    intro acc scrolls last _
    simp [run_scroll_checks, sum_deltas]
  | cons e rest ih =>
    intro acc scrolls last h
    obtain ⟨now, d⟩ := e
    simp only [run_scroll_checks, Bool.or_eq_false_iff] at h ⊢
    obtain ⟨hs, hrest⟩ := h
    have hstep := check_conservation dir acc d cfg now last scrolls hs
    have hrec := ih (check_for_scroll_trigger dir acc d cfg now last scrolls).total_movement_delta
      (check_for_scroll_trigger dir acc d cfg now last scrolls).scrolls_since_active
      (check_for_scroll_trigger dir acc d cfg now last scrolls).last_scroll_time hrest
    simp only [sum_deltas, List.map_cons, List.sum_cons] at hrec ⊢
    push_cast
    linarith

theorem run_total_bound (cfg : Config) (dir : ScrollDirection)
    (ht : 0 < cfg.mouse_move_delta_to_scroll_threshold) :
    ∀ (events : List (Nat × ℚ)) (acc : ℚ) (scrolls last : Nat),
      events ≠ [] →
      |(run_scroll_checks cfg dir events acc scrolls last).total_movement_delta| ≤
        (cfg.mouse_move_delta_to_scroll_threshold : ℚ) := by
  intro events
  induction events with
  | nil => intro acc scrolls last h; exact absurd rfl h
  | cons e rest ih =>
    intro acc scrolls last _
    obtain ⟨now, d⟩ := e
    by_cases hrest : rest = []
    · subst hrest
      simp only [run_scroll_checks]
      exact check_total_bound dir acc d cfg now last scrolls ht
    · simp only [run_scroll_checks]
      exact ih _ _ _ hrest

/-- The trigger-chord match condition exactly as the spec phrases it, for
comparison with is_trigger_shortcut: key code equals the configured trigger
key code, and the configured modifier mask is zero or the event modifiers
bitwise-AND the configured mask equals the full configured mask. -/
def spec_trigger_match (key_code : Int) (modifiers : Nat) (cfg : Config) : Prop :=
  key_code = cfg.trigger_key_code ∧
    (cfg.trigger_key_modifiers = 0 ∨
      modifiers &&& cfg.trigger_key_modifiers = cfg.trigger_key_modifiers)

instance (key_code : Int) (modifiers : Nat) (cfg : Config) :
    Decidable (spec_trigger_match key_code modifiers cfg) := by
  unfold spec_trigger_match
  exact inferInstance

/-- Default config with a configured trigger modifier mask of 6. -/
def cfg_mods6 : Config := { create_default_config with trigger_key_modifiers := 6 }

/-- Claim C2 (counterexample): with trigger key 66 and configured mask 6, a
key event with code 66 and modifier bitmask 2 is accepted by the code
(because 2 AND 6 = 2 equals the event modifiers), while the claimed
predicate rejects it (2 AND 6 = 2 differs from the full mask 6). -/
theorem is_trigger_shortcut_subset_cex :
    is_trigger_shortcut 66 2 cfg_mods6 = true ∧ ¬ spec_trigger_match 66 2 cfg_mods6 := by
  decide

/-- Claim C2 (amended): the match predicate returns true iff the key code
equals the configured trigger key code AND (the configured modifier mask is
zero OR the bitwise-AND of the event modifiers with the configured mask
equals the EVENT modifiers, i.e. the event modifiers are a subset of the
configured mask). -/
theorem is_trigger_shortcut_iff (key_code : Int) (modifiers : Nat) (cfg : Config) :
    is_trigger_shortcut key_code modifiers cfg = true ↔
      (key_code = cfg.trigger_key_code ∧
        (cfg.trigger_key_modifiers = 0 ∨
          modifiers &&& cfg.trigger_key_modifiers = modifiers)) := by
  unfold is_trigger_shortcut
  split
  · next h =>
    simp only [Bool.false_eq_true, false_iff]
    rintro ⟨-, h2 | h2⟩
    · omega
    · exact h.2 h2
  · next h =>
    push_neg at h
    simp only [beq_iff_eq]
    constructor
    · intro hk
      refine ⟨hk, ?_⟩
      by_cases hm : cfg.trigger_key_modifiers = 0
      · exact Or.inl hm
      · exact Or.inr (h (Nat.pos_of_ne_zero hm))
    · exact fun hk => hk.1

/-- Default config whose threshold was configured with -c 0. -/
def cfg_threshold0 : Config :=
  { create_default_config with mouse_move_delta_to_scroll_threshold := parse_c_threshold 0 }

/-- Claim C9: the -c argument stores the absolute value of the parsed
integer, so 0 (and the absolute value of any negative) is accepted as
threshold; with threshold 0 a single delta of 1 passes the crossing guard
and reaches the scroll branch containing the unguarded division
accumulator / threshold (witnessed by last_scroll_time being updated to
now, which happens only on that branch). -/
theorem zero_threshold_reaches_division :
    parse_c_threshold 0 = 0 ∧ parse_c_threshold (-7) = 7 ∧
      cfg_threshold0.mouse_move_delta_to_scroll_threshold = 0 ∧
      (check_for_scroll_trigger ScrollDirection.SCROLL_VERTICAL 0 1 cfg_threshold0
          1000000000 0 0).suppressed = false ∧
      (check_for_scroll_trigger ScrollDirection.SCROLL_VERTICAL 0 1 cfg_threshold0
          1000000000 0 0).last_scroll_time = 1000000000 := by
  have h1 : |(0 : ℚ) + 1| > (cfg_threshold0.mouse_move_delta_to_scroll_threshold : ℚ) := by
    norm_num [cfg_threshold0, create_default_config, parse_c_threshold]
  have h2 : ¬ scroll_rate_limited 1000000000 0 := by
    rw [scroll_rate_limited_iff]
    norm_num
  rw [check_eq_of_scroll _ _ _ _ _ _ _ h1 h2]
  refine ⟨by decide, by decide, by decide, rfl, rfl⟩

/-- Claim C10: the momentary-mode deactivation check calls the chord
predicate with modifier bitmask 0, which matches exactly when the key code
equals the configured trigger key, whatever the configured mask; hence in
momentary mode a release of the trigger key from a non-synthetic device
while Active always transitions to Inactive. -/
theorem release_with_zero_mods_deactivates :
    (∀ (key_code : Int) (cfg : Config),
        is_trigger_shortcut key_code 0 cfg = (key_code == cfg.trigger_key_code)) ∧
      ∀ (cfg : Config) (xtest_keyboard_device_id deviceid : Int)
        (pointer_pos : ScreenPoint) (now : Nat) (mods : Nat) (s : LoopState),
        cfg.is_toggle_mode_on = false → s.is_active = true →
        deviceid ≠ xtest_keyboard_device_id →
        (dispatch_event cfg xtest_keyboard_device_id pointer_pos now
            (XEvent.keyRelease deviceid cfg.trigger_key_code mods) s).1.is_active = false := by
  have hmatch : ∀ (key_code : Int) (cfg : Config),
      is_trigger_shortcut key_code 0 cfg = (key_code == cfg.trigger_key_code) := by
    intro key_code cfg
    unfold is_trigger_shortcut
    rw [if_neg]
    rintro ⟨-, h2⟩
    exact h2 (Nat.zero_and _)
  refine ⟨hmatch, ?_⟩
  intro cfg xtest_keyboard_device_id deviceid pointer_pos now mods s htog hact hdev
  simp only [dispatch_event]
  rw [if_pos htog, if_pos ⟨hdev, hact, by rw [hmatch]; exact beq_self_eq_true _⟩]
  unfold set_is_active
  rw [if_neg (by rw [hact]; exact Bool.false_ne_true)]

/-- Witness for the C10 theorem at a concrete input: default config
(momentary mode, trigger key 66), an active state, a release of key 66 from
device 3 with xtest device id 99. -/
theorem release_with_zero_mods_deactivates_witness :
    (dispatch_event create_default_config 99 ⟨0, 0⟩ 0
        (XEvent.keyRelease 3 create_default_config.trigger_key_code 8)
        ⟨true, 0, 0, 0, 0, ⟨0, 0⟩⟩).1.is_active = false :=
  release_with_zero_mods_deactivates.2 create_default_config 99 3 ⟨0, 0⟩ 0 8
    ⟨true, 0, 0, 0, 0, ⟨0, 0⟩⟩ rfl rfl (by decide)

/-- Claim C5: when a threshold crossing occurs but the elapsed time since
the last successful emission is under the 30 ms minimum interval, no
Backend call is made, the requesting axis accumulator is set to exactly 0,
and last_scroll_time and the per-window counter are left unchanged. -/
theorem rate_limit_suppression_drops_motion (scroll_direction : ScrollDirection)
    (total_movement_delta delta : ℚ) (cfg : Config)
    (now last_scroll_time scrolls_since_active : Nat)
    (hcross : |total_movement_delta + delta| >
      (cfg.mouse_move_delta_to_scroll_threshold : ℚ))
    (hfast : now - last_scroll_time < SCROLL_TRIGGER_SPEED_LIMIT_MS * NANOSECOND_TO_MILLISECOND_DIV) :
    (check_for_scroll_trigger scroll_direction total_movement_delta delta cfg
        now last_scroll_time scrolls_since_active).calls = [] ∧
      (check_for_scroll_trigger scroll_direction total_movement_delta delta cfg
        now last_scroll_time scrolls_since_active).total_movement_delta = 0 ∧
      (check_for_scroll_trigger scroll_direction total_movement_delta delta cfg
        now last_scroll_time scrolls_since_active).last_scroll_time = last_scroll_time ∧
      (check_for_scroll_trigger scroll_direction total_movement_delta delta cfg
        now last_scroll_time scrolls_since_active).scrolls_since_active =
        scrolls_since_active := by
  have h2 : scroll_rate_limited now last_scroll_time := by
    rw [scroll_rate_limited_iff]
    unfold SCROLL_TRIGGER_SPEED_LIMIT_MS NANOSECOND_TO_MILLISECOND_DIV at hfast
    omega
  rw [check_eq_of_rate_limited _ _ _ _ _ _ _ hcross h2]
  exact ⟨rfl, rfl, rfl, rfl⟩

/-- Witness for the C5 theorem: threshold 50, accumulated delta 60, second
crossing 20 ms after the last emission. -/
theorem rate_limit_suppression_drops_motion_witness :
    (check_for_scroll_trigger ScrollDirection.SCROLL_VERTICAL 0 60 create_default_config
        20000000 0 0).calls = [] ∧
      (check_for_scroll_trigger ScrollDirection.SCROLL_VERTICAL 0 60 create_default_config
        20000000 0 0).total_movement_delta = 0 ∧
      (check_for_scroll_trigger ScrollDirection.SCROLL_VERTICAL 0 60 create_default_config
        20000000 0 0).last_scroll_time = 0 ∧
      (check_for_scroll_trigger ScrollDirection.SCROLL_VERTICAL 0 60 create_default_config
        20000000 0 0).scrolls_since_active = 0 :=
  rate_limit_suppression_drops_motion ScrollDirection.SCROLL_VERTICAL 0 60
    create_default_config 20000000 0 0
    (by norm_num [create_default_config])
    (by norm_num [SCROLL_TRIGGER_SPEED_LIMIT_MS, NANOSECOND_TO_MILLISECOND_DIV])

/-- Claim C3 (counterexample): with threshold 50, processing a single delta
of 50 from accumulator 0 ends with no suppression and accumulator exactly
50, so the claimed strict bound accumulator magnitude below threshold
fails; the bound is not strict at the threshold itself. -/
theorem residual_strict_bound_cex :
    (check_for_scroll_trigger ScrollDirection.SCROLL_VERTICAL 0 50 create_default_config
        1000000000 0 0).suppressed = false ∧
      (check_for_scroll_trigger ScrollDirection.SCROLL_VERTICAL 0 50 create_default_config
        1000000000 0 0).total_movement_delta = 50 ∧
      ¬ |(check_for_scroll_trigger ScrollDirection.SCROLL_VERTICAL 0 50 create_default_config
        1000000000 0 0).total_movement_delta| <
          (create_default_config.mouse_move_delta_to_scroll_threshold : ℚ) := by
  rw [check_eq_of_no_cross _ _ _ _ _ _ _ (by norm_num [create_default_config])]
  refine ⟨rfl, by norm_num, ?_⟩
  norm_num [create_default_config]

/-- Claim C3 (amended): for a positive threshold, after any single
processing step the accumulator magnitude is at most the threshold (the
bound is not strict: it is attained exactly when the updated accumulator
lands on the threshold without crossing it), and immediately after a
rate-limit suppression the accumulator is exactly 0. -/
theorem residual_bound (scroll_direction : ScrollDirection)
    (total_movement_delta delta : ℚ) (cfg : Config)
    (now last_scroll_time scrolls_since_active : Nat)
    (ht : 0 < cfg.mouse_move_delta_to_scroll_threshold) :
    ((check_for_scroll_trigger scroll_direction total_movement_delta delta cfg
        now last_scroll_time scrolls_since_active).suppressed = false →
      |(check_for_scroll_trigger scroll_direction total_movement_delta delta cfg
        now last_scroll_time scrolls_since_active).total_movement_delta| ≤
        (cfg.mouse_move_delta_to_scroll_threshold : ℚ)) ∧
      ((check_for_scroll_trigger scroll_direction total_movement_delta delta cfg
        now last_scroll_time scrolls_since_active).suppressed = true →
        (check_for_scroll_trigger scroll_direction total_movement_delta delta cfg
          now last_scroll_time scrolls_since_active).total_movement_delta = 0) :=
  ⟨fun _ => check_total_bound scroll_direction total_movement_delta delta cfg
      now last_scroll_time scrolls_since_active ht,
   check_suppressed_total scroll_direction total_movement_delta delta cfg
      now last_scroll_time scrolls_since_active⟩

/-- Witness for the C3 amended theorem: threshold 50, delta 30 from
accumulator 0, no suppression; the bound 30 at most 50 follows. -/
theorem residual_bound_witness :
    |(check_for_scroll_trigger ScrollDirection.SCROLL_VERTICAL 0 30 create_default_config
        1000000000 0 0).total_movement_delta| ≤
      (create_default_config.mouse_move_delta_to_scroll_threshold : ℚ) :=
  (residual_bound ScrollDirection.SCROLL_VERTICAL 0 30 create_default_config
      1000000000 0 0 (by decide)).1
    (by rw [check_eq_of_no_cross _ _ _ _ _ _ _ (by norm_num [create_default_config])])

/-- Claim C4 (counterexample): threshold 50, the single-delta sequence
[50] with no rate-limit suppression emits 0 ticks (the crossing test is
strict), while truncate_toward_zero(sum / threshold) computed in one step
on the sum 50 gives 1. -/
theorem additivity_cex :
    (run_scroll_checks create_default_config ScrollDirection.SCROLL_VERTICAL
        [(1000000000, (50 : ℚ))] 0 0 0).any_suppressed = false ∧
      (run_scroll_checks create_default_config ScrollDirection.SCROLL_VERTICAL
        [(1000000000, (50 : ℚ))] 0 0 0).total_scroll_amount = 0 ∧
      ctrunc (sum_deltas [(1000000000, (50 : ℚ))] /
        (create_default_config.mouse_move_delta_to_scroll_threshold : ℚ)) = 1 ∧
      (run_scroll_checks create_default_config ScrollDirection.SCROLL_VERTICAL
          [(1000000000, (50 : ℚ))] 0 0 0).total_scroll_amount ≠
        ctrunc (sum_deltas [(1000000000, (50 : ℚ))] /
          (create_default_config.mouse_move_delta_to_scroll_threshold : ℚ)) := by
  have hr := check_eq_of_no_cross ScrollDirection.SCROLL_VERTICAL 0 50
    create_default_config 1000000000 0 0 (by norm_num [create_default_config])
  simp only [run_scroll_checks, hr]
  refine ⟨rfl, rfl, ?_, ?_⟩
  · norm_num [sum_deltas, ctrunc, create_default_config]
  · norm_num [sum_deltas, ctrunc, create_default_config]

/-- Claim C4 (amended): for a positive threshold and a nonempty same-axis
delta sequence processed with no rate-limit suppression, the signed total
of the incrementally computed tick counts satisfies the exact conservation
law total_ticks * threshold + final_accumulator = initial_accumulator +
sum(deltas), with final accumulator magnitude at most the threshold. The
claimed one-step identity total_ticks = truncate_toward_zero(sum /
threshold) fails where the running total lands exactly on the threshold. -/
theorem additivity_conservation (cfg : Config) (dir : ScrollDirection)
    (events : List (Nat × ℚ)) (acc : ℚ) (scrolls last : Nat)
    (ht : 0 < cfg.mouse_move_delta_to_scroll_threshold)
    (hns : (run_scroll_checks cfg dir events acc scrolls last).any_suppressed = false)
    (hne : events ≠ []) :
    (run_scroll_checks cfg dir events acc scrolls last).total_movement_delta +
        ((run_scroll_checks cfg dir events acc scrolls last).total_scroll_amount : ℚ) *
          (cfg.mouse_move_delta_to_scroll_threshold : ℚ) =
      acc + sum_deltas events ∧
      |(run_scroll_checks cfg dir events acc scrolls last).total_movement_delta| ≤
        (cfg.mouse_move_delta_to_scroll_threshold : ℚ) :=
  ⟨run_conservation cfg dir events acc scrolls last hns,
   run_total_bound cfg dir ht events acc scrolls last hne⟩

/-- Witness for the C4 amended theorem: threshold 50, single delta 60 from
accumulator 0, clock far past the rate limit window. -/
theorem additivity_conservation_witness :
    (run_scroll_checks create_default_config ScrollDirection.SCROLL_VERTICAL
          [(1000000000, (60 : ℚ))] 0 0 0).total_movement_delta +
        ((run_scroll_checks create_default_config ScrollDirection.SCROLL_VERTICAL
          [(1000000000, (60 : ℚ))] 0 0 0).total_scroll_amount : ℚ) *
          (create_default_config.mouse_move_delta_to_scroll_threshold : ℚ) =
      0 + sum_deltas [(1000000000, (60 : ℚ))] ∧
      |(run_scroll_checks create_default_config ScrollDirection.SCROLL_VERTICAL
          [(1000000000, (60 : ℚ))] 0 0 0).total_movement_delta| ≤
        (create_default_config.mouse_move_delta_to_scroll_threshold : ℚ) :=
  additivity_conservation create_default_config ScrollDirection.SCROLL_VERTICAL
    [(1000000000, (60 : ℚ))] 0 0 0 (by decide)
    (by
      have hr := check_eq_of_scroll ScrollDirection.SCROLL_VERTICAL 0 60
        create_default_config 1000000000 0 0 (by norm_num [create_default_config])
        (by rw [scroll_rate_limited_iff]; norm_num)
      simp only [run_scroll_checks, hr]
      rfl)
    (by decide)

theorem count_scroll_ticks_append (l1 l2 : List BackendCall) :
    count_scroll_ticks (l1 ++ l2) = count_scroll_ticks l1 + count_scroll_ticks l2 := by
  induction l1 with
  | nil => simp [count_scroll_ticks]
  | cons c rest ih =>
    cases c
    all_goals simp [count_scroll_ticks, ih]
    all_goals omega

theorem count_scroll_ticks_replicate (n b : Nat) :
    count_scroll_ticks (List.replicate n (BackendCall.scrollTick b)) = n := by
  induction n with
  | zero => rfl
  | succ k ih =>
    rw [List.replicate_succ]
    simp [count_scroll_ticks, ih]

/-- Number of emitted ticks of one trigger_scroll call as a function of the
requested amount and the allow-repeated flag. -/
theorem count_scroll_ticks_trigger_scroll (cfg : Config) (dir : ScrollDirection)
    (amount : Int) :
    count_scroll_ticks (trigger_scroll cfg dir amount) =
      if amount = 0 then 0
      else if cfg.allow_triggering_of_repeated_scroll_event then amount.natAbs else 1 := by
  unfold trigger_scroll
  split
  · rfl
  · split <;> exact count_scroll_ticks_replicate _ _

/-- Config of Example 1 of the spec: threshold 50, repeated ticks off,
trigger-release off so the trace shows the scroll ticks alone. -/
def cfg_example1 : Config := { create_default_config with release_trigger_button := false }

/-- Config of Example 2 of the spec: threshold 10, repeated ticks on. -/
def cfg_example2 : Config :=
  { create_default_config with
      mouse_move_delta_to_scroll_threshold := 10
      allow_triggering_of_repeated_scroll_event := true
      release_trigger_button := false }

/-- Claim C6: with allow-multiple-ticks-per-crossing false a crossing emits
at most one tick whatever the computed tick count, while the accumulator is
decremented by the full tick_count times threshold; and the Example 1 run
(threshold 50, vertical deltas 30 then 30) gives accumulator 30 with no
calls after the first delta, then one emitted down-tick, scroll_amount 1
and residual 10 after the second. -/
theorem clamped_single_tick_emission :
    (∀ (cfg : Config) (dir : ScrollDirection) (amount : Int),
        cfg.allow_triggering_of_repeated_scroll_event = false →
        count_scroll_ticks (trigger_scroll cfg dir amount) ≤ 1) ∧
      (∀ (dir : ScrollDirection) (acc d : ℚ) (cfg : Config) (now last scrolls : Nat),
        (check_for_scroll_trigger dir acc d cfg now last scrolls).suppressed = false →
        (check_for_scroll_trigger dir acc d cfg now last scrolls).total_movement_delta =
          acc + d -
            ((check_for_scroll_trigger dir acc d cfg now last scrolls).scroll_amount : ℚ) *
              (cfg.mouse_move_delta_to_scroll_threshold : ℚ)) ∧
      check_for_scroll_trigger ScrollDirection.SCROLL_VERTICAL 0 30 cfg_example1
          500000000 0 0 =
        { total_movement_delta := 30
          scrolls_since_active := 0
          last_scroll_time := 0
          calls := []
          scroll_amount := 0
          suppressed := false } ∧
      (check_for_scroll_trigger ScrollDirection.SCROLL_VERTICAL 30 30 cfg_example1
          1000000000 0 0).total_movement_delta = 10 ∧
      (check_for_scroll_trigger ScrollDirection.SCROLL_VERTICAL 30 30 cfg_example1
          1000000000 0 0).scroll_amount = 1 ∧
      (check_for_scroll_trigger ScrollDirection.SCROLL_VERTICAL 30 30 cfg_example1
          1000000000 0 0).calls = [BackendCall.scrollTick SCROLL_DOWN] := by
  have hclamp : ∀ (cfg : Config) (dir : ScrollDirection) (amount : Int),
      cfg.allow_triggering_of_repeated_scroll_event = false →
      count_scroll_ticks (trigger_scroll cfg dir amount) ≤ 1 := by
    intro cfg dir amount h
    rw [count_scroll_ticks_trigger_scroll, h]
    split <;> simp
  have hbook : ∀ (dir : ScrollDirection) (acc d : ℚ) (cfg : Config) (now last scrolls : Nat),
      (check_for_scroll_trigger dir acc d cfg now last scrolls).suppressed = false →
      (check_for_scroll_trigger dir acc d cfg now last scrolls).total_movement_delta =
        acc + d -
          ((check_for_scroll_trigger dir acc d cfg now last scrolls).scroll_amount : ℚ) *
            (cfg.mouse_move_delta_to_scroll_threshold : ℚ) := by
    intro dir acc d cfg now last scrolls h
    have := check_conservation dir acc d cfg now last scrolls h
    linarith
  have hstep1 := check_eq_of_no_cross ScrollDirection.SCROLL_VERTICAL 0 30 cfg_example1
    500000000 0 0 (by norm_num [cfg_example1, create_default_config])
  have hct : ctrunc (((30 : ℚ) + 30) /
      (cfg_example1.mouse_move_delta_to_scroll_threshold : ℚ)) = 1 := by
    norm_num [ctrunc, cfg_example1, create_default_config]
  have hstep2 := check_eq_of_scroll ScrollDirection.SCROLL_VERTICAL 30 30 cfg_example1
    1000000000 0 0 (by norm_num [cfg_example1, create_default_config])
    (by rw [scroll_rate_limited_iff]; norm_num)
  refine ⟨hclamp, hbook, ?_, ?_, ?_, ?_⟩
  · rw [hstep1]
    norm_num
  · rw [hstep2, hct]
    norm_num [cfg_example1, create_default_config]
  · rw [hstep2, hct]
  · rw [hstep2, hct]
    norm_num [cfg_example1, create_default_config, trigger_scroll]

/-- Witness for the hypotheses of the C6 theorem: the clamp bound at the
Example 1 config with requested amount 3, and the bookkeeping identity at
the second Example 1 step. -/
theorem clamped_single_tick_emission_witness :
    count_scroll_ticks (trigger_scroll cfg_example1 ScrollDirection.SCROLL_VERTICAL 3) ≤ 1 ∧
      (check_for_scroll_trigger ScrollDirection.SCROLL_VERTICAL 30 30 cfg_example1
          1000000000 0 0).total_movement_delta =
        30 + 30 -
          ((check_for_scroll_trigger ScrollDirection.SCROLL_VERTICAL 30 30 cfg_example1
              1000000000 0 0).scroll_amount : ℚ) *
            (cfg_example1.mouse_move_delta_to_scroll_threshold : ℚ) :=
  ⟨clamped_single_tick_emission.1 cfg_example1 ScrollDirection.SCROLL_VERTICAL 3 rfl,
   clamped_single_tick_emission.2.1 ScrollDirection.SCROLL_VERTICAL 30 30 cfg_example1
     1000000000 0 0
     (by
       rw [check_eq_of_scroll ScrollDirection.SCROLL_VERTICAL 30 30 cfg_example1
         1000000000 0 0 (by norm_num [cfg_example1, create_default_config])
         (by rw [scroll_rate_limited_iff]; norm_num)])⟩

/-- Claim C7: with allow-multiple-ticks-per-crossing true every requested
tick is emitted (the emitted count equals the magnitude of the requested
amount), the extracted tick count is truncate_toward_zero(accumulator /
threshold), and the Example 2 run (threshold 10, single delta 35) extracts
scroll_amount 3, emits 3 ticks and leaves residual 5. -/
theorem repeated_ticks_all_emitted :
    (∀ (cfg : Config) (dir : ScrollDirection) (amount : Int),
        cfg.allow_triggering_of_repeated_scroll_event = true →
        count_scroll_ticks (trigger_scroll cfg dir amount) = amount.natAbs) ∧
      (∀ (dir : ScrollDirection) (acc d : ℚ) (cfg : Config) (now last scrolls : Nat),
        (check_for_scroll_trigger dir acc d cfg now last scrolls).suppressed = false →
        |acc + d| > (cfg.mouse_move_delta_to_scroll_threshold : ℚ) →
        (check_for_scroll_trigger dir acc d cfg now last scrolls).scroll_amount =
          ctrunc ((acc + d) / (cfg.mouse_move_delta_to_scroll_threshold : ℚ))) ∧
      (check_for_scroll_trigger ScrollDirection.SCROLL_VERTICAL 0 35 cfg_example2
          1000000000 0 0).scroll_amount = 3 ∧
      count_scroll_ticks
          (check_for_scroll_trigger ScrollDirection.SCROLL_VERTICAL 0 35 cfg_example2
            1000000000 0 0).calls = 3 ∧
      (check_for_scroll_trigger ScrollDirection.SCROLL_VERTICAL 0 35 cfg_example2
          1000000000 0 0).total_movement_delta = 5 := by
  have hall : ∀ (cfg : Config) (dir : ScrollDirection) (amount : Int),
      cfg.allow_triggering_of_repeated_scroll_event = true →
      count_scroll_ticks (trigger_scroll cfg dir amount) = amount.natAbs := by
    intro cfg dir amount h
    rw [count_scroll_ticks_trigger_scroll, h]
    split
    · next h0 => rw [h0]; rfl
    · simp
  have hamount : ∀ (dir : ScrollDirection) (acc d : ℚ) (cfg : Config)
      (now last scrolls : Nat),
      (check_for_scroll_trigger dir acc d cfg now last scrolls).suppressed = false →
      |acc + d| > (cfg.mouse_move_delta_to_scroll_threshold : ℚ) →
      (check_for_scroll_trigger dir acc d cfg now last scrolls).scroll_amount =
        ctrunc ((acc + d) / (cfg.mouse_move_delta_to_scroll_threshold : ℚ)) := by
    intro dir acc d cfg now last scrolls hs hcross
    by_cases h2 : scroll_rate_limited now last
    · rw [check_eq_of_rate_limited _ _ _ _ _ _ _ hcross h2] at hs
      simp at hs
    · rw [check_eq_of_scroll _ _ _ _ _ _ _ hcross h2]
  have hct : ctrunc (((0 : ℚ) + 35) /
      (cfg_example2.mouse_move_delta_to_scroll_threshold : ℚ)) = 3 := by
    norm_num [ctrunc, cfg_example2, create_default_config]
  have hstep := check_eq_of_scroll ScrollDirection.SCROLL_VERTICAL 0 35 cfg_example2
    1000000000 0 0 (by norm_num [cfg_example2, create_default_config])
    (by rw [scroll_rate_limited_iff]; norm_num)
  refine ⟨hall, hamount, ?_, ?_, ?_⟩
  · rw [hstep, hct]
  · rw [hstep, hct]
    norm_num [cfg_example2, create_default_config, count_scroll_ticks,
      count_scroll_ticks_append, count_scroll_ticks_trigger_scroll]
  · rw [hstep, hct]
    norm_num [cfg_example2, create_default_config]

/-- Witness for the hypotheses of the C7 theorem: the full-emission count at
the Example 2 config with requested amount 3, and the extraction identity
at the Example 2 step. -/
theorem repeated_ticks_all_emitted_witness :
    count_scroll_ticks (trigger_scroll cfg_example2 ScrollDirection.SCROLL_VERTICAL 3) =
        (3 : Int).natAbs ∧
      (check_for_scroll_trigger ScrollDirection.SCROLL_VERTICAL 0 35 cfg_example2
          1000000000 0 0).scroll_amount =
        ctrunc (((0 : ℚ) + 35) / (cfg_example2.mouse_move_delta_to_scroll_threshold : ℚ)) :=
  ⟨repeated_ticks_all_emitted.1 cfg_example2 ScrollDirection.SCROLL_VERTICAL 3 rfl,
   repeated_ticks_all_emitted.2.1 ScrollDirection.SCROLL_VERTICAL 0 35 cfg_example2
     1000000000 0 0
     (by
       rw [check_eq_of_scroll ScrollDirection.SCROLL_VERTICAL 0 35 cfg_example2
         1000000000 0 0 (by norm_num [cfg_example2, create_default_config])
         (by rw [scroll_rate_limited_iff]; norm_num)])
     (by norm_num [cfg_example2, create_default_config])⟩

/-- Default config with toggle mode enabled. -/
def cfg_toggle : Config := { create_default_config with is_toggle_mode_on := true }

/-- Claim C1 (counterexample): in toggle mode with threshold 50, the run
activate, move 30, deactivate, activate again ends Active with the vertical
accumulator still 30: the Inactive-to-Active transition does not reset the
axis accumulators, so residual motion from the earlier activation window
survives. -/
theorem activation_accumulator_residual_cex :
    (dispatch_events cfg_toggle 99 ⟨0, 0⟩
        [(0, XEvent.keyPress 3 66 0 false),
         (10, XEvent.rawMotion 0 30),
         (20, XEvent.keyPress 3 66 0 false),
         (30, XEvent.keyPress 3 66 0 false)]
        ⟨false, 0, 0, 0, 0, ⟨0, 0⟩⟩).1.is_active = true ∧
      (dispatch_events cfg_toggle 99 ⟨0, 0⟩
        [(0, XEvent.keyPress 3 66 0 false),
         (10, XEvent.rawMotion 0 30),
         (20, XEvent.keyPress 3 66 0 false),
         (30, XEvent.keyPress 3 66 0 false)]
        ⟨false, 0, 0, 0, 0, ⟨0, 0⟩⟩).1.total_movement_y_delta = 30 ∧
      (dispatch_events cfg_toggle 99 ⟨0, 0⟩
        [(0, XEvent.keyPress 3 66 0 false),
         (10, XEvent.rawMotion 0 30),
         (20, XEvent.keyPress 3 66 0 false),
         (30, XEvent.keyPress 3 66 0 false)]
        ⟨false, 0, 0, 0, 0, ⟨0, 0⟩⟩).1.total_movement_y_delta ≠ 0 := by
  have e1 : dispatch_event cfg_toggle 99 ⟨0, 0⟩ 0 (XEvent.keyPress 3 66 0 false)
      ⟨false, 0, 0, 0, 0, ⟨0, 0⟩⟩ =
      (⟨true, 0, 0, 0, 0, ⟨0, 0⟩⟩,
        [BackendCall.hideCursor, BackendCall.queryPointer]) := by
    norm_num [dispatch_event, set_is_active, is_trigger_shortcut, cfg_toggle,
      create_default_config, CAPSLOCK_KEY_CODE]
  have hc := check_eq_of_no_cross ScrollDirection.SCROLL_VERTICAL 0 30 cfg_toggle 10 0 0
    (by norm_num [cfg_toggle, create_default_config])
  have e2 : dispatch_event cfg_toggle 99 ⟨0, 0⟩ 10 (XEvent.rawMotion 0 30)
      ⟨true, 0, 0, 0, 0, ⟨0, 0⟩⟩ =
      (⟨true, 0, 0, 30, 0, ⟨0, 0⟩⟩, [BackendCall.warpPointer ⟨0, 0⟩]) := by
    norm_num [dispatch_event, hc,
      show cfg_toggle.allow_horizontal_scroll = false from rfl]
  have e3 : dispatch_event cfg_toggle 99 ⟨0, 0⟩ 20 (XEvent.keyPress 3 66 0 false)
      ⟨true, 0, 0, 30, 0, ⟨0, 0⟩⟩ =
      (⟨false, 0, 0, 30, 0, ⟨0, 0⟩⟩, [BackendCall.showCursor]) := by
    norm_num [dispatch_event, set_is_active, is_trigger_shortcut, cfg_toggle,
      create_default_config, CAPSLOCK_KEY_CODE]
  have e4 : dispatch_event cfg_toggle 99 ⟨0, 0⟩ 30 (XEvent.keyPress 3 66 0 false)
      ⟨false, 0, 0, 30, 0, ⟨0, 0⟩⟩ =
      (⟨true, 0, 0, 30, 0, ⟨0, 0⟩⟩,
        [BackendCall.hideCursor, BackendCall.queryPointer]) := by
    norm_num [dispatch_event, set_is_active, is_trigger_shortcut, cfg_toggle,
      create_default_config, CAPSLOCK_KEY_CODE]
  simp only [dispatch_events, e1, e2, e3, e4]
  norm_num

/-- Claim C1 (amended): an accepted trigger-chord press while Inactive
(toggle or momentary mode) transitions to Active, resets the per-window
emission counter to 0 and records the pin anchor, but leaves both axis
accumulators unchanged: they keep any residual motion from earlier
activation windows rather than being reset to 0. -/
theorem inactive_to_active_keeps_accumulators (cfg : Config)
    (xtest_keyboard_device_id deviceid key_code : Int) (mods : Nat)
    (pointer_pos : ScreenPoint) (now : Nat) (s : LoopState)
    (hdev : deviceid ≠ xtest_keyboard_device_id)
    (hmatch : is_trigger_shortcut key_code mods cfg = true)
    (hinact : s.is_active = false) :
    dispatch_event cfg xtest_keyboard_device_id pointer_pos now
        (XEvent.keyPress deviceid key_code mods false) s =
      ({ s with
          is_active := true
          scrolls_since_active := 0
          start_pointer_pos := pointer_pos },
        [BackendCall.hideCursor, BackendCall.queryPointer]) := by
  cases htog : cfg.is_toggle_mode_on <;>
    simp [dispatch_event, set_is_active, hdev, hmatch, hinact, htog]

/-- Witness for the C1 amended theorem: default config, a press of key 66
from device 3 while Inactive with residual accumulators 17 and 3. -/
theorem inactive_to_active_keeps_accumulators_witness :
    dispatch_event create_default_config 99 ⟨9, 9⟩ 0
        (XEvent.keyPress 3 66 0 false) ⟨false, 4, 7, 17, 3, ⟨1, 2⟩⟩ =
      (⟨true, 0, 7, 17, 3, ⟨9, 9⟩⟩,
        [BackendCall.hideCursor, BackendCall.queryPointer]) :=
  inactive_to_active_keeps_accumulators create_default_config 99 3 66 0 ⟨9, 9⟩ 0
    ⟨false, 4, 7, 17, 3, ⟨1, 2⟩⟩ (by decide) (by decide) rfl

/-- Claim C8 (counterexample): momentary mode (default config), state
Active with pin anchor (0,0), pointer now at (5,7); an accepted chord match
press re-records the pin anchor to (5,7) and issues a pointer query to the
Backend, so the event is not a no-op. -/
theorem active_chord_match_not_noop_cex :
    (dispatch_event create_default_config 99 ⟨5, 7⟩ 0
        (XEvent.keyPress 3 66 0 false) ⟨true, 2, 0, 7, 0, ⟨0, 0⟩⟩).1.start_pointer_pos =
        ⟨5, 7⟩ ∧
      (⟨5, 7⟩ : ScreenPoint) ≠ (⟨0, 0⟩ : ScreenPoint) ∧
      (dispatch_event create_default_config 99 ⟨5, 7⟩ 0
        (XEvent.keyPress 3 66 0 false) ⟨true, 2, 0, 7, 0, ⟨0, 0⟩⟩).2 =
        [BackendCall.queryPointer] := by
  have h : dispatch_event create_default_config 99 ⟨5, 7⟩ 0
      (XEvent.keyPress 3 66 0 false) ⟨true, 2, 0, 7, 0, ⟨0, 0⟩⟩ =
      (⟨true, 2, 0, 7, 0, ⟨5, 7⟩⟩, [BackendCall.queryPointer]) := by
    norm_num [dispatch_event, set_is_active, is_trigger_shortcut,
      create_default_config, CAPSLOCK_KEY_CODE]
  rw [h]
  refine ⟨rfl, by decide, rfl⟩

/-- Claim C8 (amended): in momentary mode an accepted chord-match press
while already Active leaves the activation state, both accumulators and the
per-window emission counter unchanged, but re-queries the pointer position
(one Backend call) and re-records the pin anchor to the current pointer
position. -/
theorem active_chord_match_repins (cfg : Config)
    (xtest_keyboard_device_id deviceid key_code : Int) (mods : Nat)
    (pointer_pos : ScreenPoint) (now : Nat) (s : LoopState)
    (htog : cfg.is_toggle_mode_on = false)
    (hact : s.is_active = true)
    (hdev : deviceid ≠ xtest_keyboard_device_id)
    (hmatch : is_trigger_shortcut key_code mods cfg = true) :
    dispatch_event cfg xtest_keyboard_device_id pointer_pos now
        (XEvent.keyPress deviceid key_code mods false) s =
      ({ s with start_pointer_pos := pointer_pos }, [BackendCall.queryPointer]) := by
  simp [dispatch_event, set_is_active, htog, hact, hdev, hmatch]

/-- Witness for the C8 amended theorem: default config, active state with
counter 2 and accumulator 7, pointer at (5,6). -/
theorem active_chord_match_repins_witness :
    dispatch_event create_default_config 99 ⟨5, 6⟩ 1 (XEvent.keyPress 4 66 0 false)
        ⟨true, 2, 3, 7, 1, ⟨8, 8⟩⟩ =
      (⟨true, 2, 3, 7, 1, ⟨5, 6⟩⟩, [BackendCall.queryPointer]) :=
  active_chord_match_repins create_default_config 99 4 66 0 ⟨5, 6⟩ 1
    ⟨true, 2, 3, 7, 1, ⟨8, 8⟩⟩ rfl rfl (by decide) (by decide)
